import Mathlib

/-!
Verification of the summarization subsystem of the RSS Telegram bot
(`src/summarize.py`, `src/models.py`).

Python strings are modelled as lists of Unicode code points (`PStr`).
Python numbers appearing in the scoring heuristic are modelled with exact
rationals (the source uses IEEE doubles; the spec states the formulas as
exact arithmetic, and all constants involved are small decimals).
Each definition mirrors one Python function or expression of the source;
the mapping is noted in the doc comments.
-/

namespace RssBot

/-- A Python string: the list of its Unicode code points. -/
abbrev PStr := List Nat

/-- Code points of a Lean string literal (used to transcribe the literals of the source). -/
def s2l (s : String) : PStr := s.toList.map Char.toNat

/-- Python `str` whitespace test, on the ASCII whitespace the code manipulates
(space, tab, newline, carriage return, vertical tab, form feed). -/
def isSpace (c : Nat) : Bool :=
  c == 32 || c == 9 || c == 10 || c == 13 || c == 11 || c == 12

/-- Python `str.lower` on one code point, for the ASCII and Latin-1 letters
occurring in the source's string literals. -/
def lowerChar (c : Nat) : Nat :=
  if 65 ≤ c && c ≤ 90 then c + 32
  else if 192 ≤ c && c ≤ 222 && c != 215 then c + 32
  else c

/-- Python `str.lower`. -/
def pyLower (l : PStr) : PStr := l.map lowerChar

/-- Python `str.strip()` (no argument): remove leading and trailing whitespace. -/
def pyStrip (l : PStr) : PStr :=
  ((l.dropWhile isSpace).reverse.dropWhile isSpace).reverse

/-- Python `a.startswith(p)`. -/
def pyStartsWith (l p : PStr) : Bool := p.isPrefixOf l

/-- Python `needle in hay` (substring test). -/
def pyContains (hay needle : PStr) : Bool :=
  match hay with
  | [] => needle.isEmpty
  | _ :: t => needle.isPrefixOf hay || pyContains t needle

/-- Split a string at every character satisfying `p`, keeping empty chunks
(the common core of `str.split(sep)` for a one-character separator). -/
def splitEach (p : Nat → Bool) : PStr → List PStr
  | [] => [[]]
  | c :: cs =>
    if p c then [] :: splitEach p cs
    else (splitEach p cs).modifyHead (fun t => c :: t)

/-- Python `s.split("\n")`. -/
def splitNl (l : PStr) : List PStr := splitEach (fun c => c == 10) l

/-- Python `s.split()` (no argument): whitespace-separated words, no empties. -/
def pyWords (l : PStr) : List PStr :=
  (splitEach isSpace l).filter (fun w => !w.isEmpty)

/-- Python `" ".join(ws)`. -/
def joinSpace : List PStr → PStr
  | [] => []
  | [w] => w
  | w :: ws => w ++ 32 :: joinSpace ws

/-- Number of words of a Python string, in the sense of `len(s.split())`. -/
def wordCount (l : PStr) : Nat := (pyWords l).length

/-- `" ".join(s.split()[:k])`: word-count truncation as performed by
`format_summary` (summarize.py lines 435-441). -/
def truncWords (k : Nat) (l : PStr) : PStr := joinSpace ((pyWords l).take k)

/-- Engine of `re.sub(r"<[^>]+>", "", content)` (summarize.py line 299):
at a `<` followed by at least one non-`>` character and then a `>`, the
whole group is deleted and scanning resumes after the `>`; otherwise the
character is kept. The fuel starts at the string length and dominates the
number of steps, so it never runs out. -/
def stripTagsGo : Nat → PStr → PStr
  | _, [] => []
  | 0, l => l
  | fuel + 1, c :: rest =>
    if c == 60 && !(rest.takeWhile (fun d => d != 62)).isEmpty
        && (rest.takeWhile (fun d => d != 62)).length < rest.length then
      stripTagsGo fuel (rest.drop ((rest.takeWhile (fun d => d != 62)).length + 1))
    else c :: stripTagsGo fuel rest

/-- `re.sub(r"<[^>]+>", "", content)` (summarize.py line 299): delete every
maximal `<`…`>` group with at least one non-`>` character inside. -/
def stripTags (l : PStr) : PStr := stripTagsGo l.length l

/-- `re.sub(r"\s+", " ", text)` (summarize.py line 300): collapse every
whitespace run to a single space (a whitespace character is dropped when
followed by another whitespace character, otherwise replaced by a space). -/
def collapseWs : PStr → PStr
  | [] => []
  | [c] => if isSpace c then [32] else [c]
  | c :: d :: rest =>
    if isSpace c && isSpace d then collapseWs (d :: rest)
    else (if isSpace c then 32 else c) :: collapseWs (d :: rest)

/-- `re.split(r"[.!?]+", text)`: split at every maximal run of characters
satisfying `p` (a separator continues the current run when the next
character is also a separator, otherwise it ends a chunk). -/
def splitRuns (p : Nat → Bool) : PStr → List PStr
  | [] => [[]]
  | [c] => if p c then [[], []] else [[c]]
  | c :: d :: rest =>
    if p c then
      if p d then splitRuns p (d :: rest)
      else [] :: splitRuns p (d :: rest)
    else (splitRuns p (d :: rest)).modifyHead (fun t => c :: t)

/-- `re.sub(r"^(lab1|lab2|…)\s*", "", line, flags=re.IGNORECASE)` where the
labels are the given (lowercase) literal alternatives, tried in order:
if the line starts (case-insensitively) with a label, drop it and the
following whitespace; otherwise return the line unchanged. -/
def subLabels (labels : List PStr) (l : PStr) : PStr :=
  match labels with
  | [] => l
  | lab :: rest =>
    if pyStartsWith (pyLower l) lab then (l.drop lab.length).dropWhile isSpace
    else subLabels rest l

/-! ## Data model (`src/models.py`) -/

/-- The `Summary` dataclass (models.py lines 19-26). Its generated
constructor takes exactly the three fields below. -/
structure Summary where
  title : PStr
  bullets : List PStr
  why_it_matters : PStr
deriving DecidableEq

/-- The `FeedItem` dataclass (models.py lines 7-16); `published` is an
abstract timestamp. -/
structure FeedItem where
  title : PStr
  link : PStr
  published : Int
  content : PStr
  feed_url : PStr
  guid : Option PStr := none

/-- The keyword names accepted by the generated `Summary.__init__`
(exactly the dataclass fields of models.py lines 19-26). -/
def summaryInitFields : List String := ["title", "bullets", "why_it_matters"]

/-- A Python call `Cls(k1=…, k2=…)` on a dataclass raises `TypeError` unless
every keyword is one of the dataclass fields. -/
def dataclassAccepts (fields kwargs : List String) : Bool :=
  kwargs.all (fun k => fields.contains k)

/-! ## Output parser `Summarizer.format_summary` (summarize.py lines 380-447) -/

/-- The fixed padding bullet of line 427. -/
def placeholderBullet : PStr := s2l "Dettagli nell\x27articolo completo"

/-- Title label alternatives of the regex on line 398, lowercased. -/
def titleLabels : List PStr := [s2l "titolo:", s2l "title:"]

/-- Why-it-matters label alternatives of lines 410-416, lowercased. -/
def whyLabels : List PStr :=
  [s2l "perché ti può interessare:", s2l "perché conta:", s2l "why it matters:"]

/-- Source label alternatives of lines 417-423, lowercased. -/
def sourceLabels : List PStr := [s2l "fonte:", s2l "source:"]

/-- `[line.strip() for line in raw_summary.split("\n") if line.strip()]`
(line 382). -/
def linesOf (raw : PStr) : List PStr :=
  ((splitNl raw).map pyStrip).filter (fun l => !l.isEmpty)

/-- `line.startswith("•") or line.startswith("-")` (line 406). -/
def isBulletLine (l : PStr) : Bool :=
  pyStartsWith l (s2l "•") || pyStartsWith l (s2l "-")

/-- Whether the line passes the why-it-matters guard of line 410. -/
def isWhyLine (l : PStr) : Bool :=
  whyLabels.any (fun lab => pyStartsWith (pyLower l) lab)

/-- Whether the line passes the source guard of line 417. -/
def isSourceLine (l : PStr) : Bool :=
  sourceLabels.any (fun lab => pyStartsWith (pyLower l) lab)

/-- The bullet contributed by a line of `lines[1:]`, if any (lines 406-409):
marker stripped, then stripped of whitespace, skipped when empty. -/
def bulletOfLine (l : PStr) : Option PStr :=
  if isBulletLine l then
    let b := pyStrip (l.drop 1)
    if b.isEmpty then none else some b
  else none

/-- The why-it-matters text contributed by a line, if any (lines 410-416);
bullet lines are consumed by the earlier branch of the if/elif chain. -/
def whyOfLine (l : PStr) : Option PStr :=
  if isBulletLine l then none
  else if isWhyLine l then some (subLabels whyLabels l)
  else none

/-- The source text contributed by a line, if any (lines 417-423); bullet
and why lines are consumed by the earlier branches. -/
def srcOfLine (l : PStr) : Option PStr :=
  if isBulletLine l then none
  else if isWhyLine l then none
  else if isSourceLine l then some (subLabels sourceLabels l)
  else none

/-- Last value assigned in the loop of lines 405-423 (later lines overwrite
the `why_it_matters` / `source` variables). -/
def lastSome (f : α → Option β) : List α → Option β
  | [] => none
  | x :: xs =>
    match lastSome f xs with
    | some r => some r
    | none => f x

/-- The fixed Summary returned when no non-empty line exists (lines 384-393). -/
def emptyLinesSummary : Summary :=
  { title := s2l "Riassunto non disponibile"
    bullets := [s2l "Errore nella formattazione",
                s2l "Consultare articolo originale",
                s2l "Contenuto non elaborabile"]
    why_it_matters := s2l "Informazioni potrebbero essere importanti" }

/-- Bullet normalization of lines 425-428 followed by the word-cap of
line 438: pad to 3 with the placeholder when fewer, keep the first 3 when
more, then truncate each to its first 30 words. -/
def normalizedBullets (rest : List PStr) : List PStr :=
  ((if (rest.filterMap bulletOfLine).length < 3 then
      rest.filterMap bulletOfLine
        ++ List.replicate (3 - (rest.filterMap bulletOfLine).length)
            placeholderBullet
    else rest.filterMap bulletOfLine).take 3).map (truncWords 30)

/-- The why-it-matters text before truncation: last labelled line of
`lines[1:]` with the label stripped, or the fixed default of line 432. -/
def parsedWhy (rest : List PStr) : PStr :=
  if ((lastSome whyOfLine rest).getD []).isEmpty then
    s2l "Informazioni rilevanti per il settore"
  else (lastSome whyOfLine rest).getD []

/-- The source text: last source-labelled line with the label stripped
(empty when none). -/
def parsedSrc (rest : List PStr) : PStr := (lastSome srcOfLine rest).getD []

/-- Lines 440-445: truncate why-it-matters to 20 words, then append the
source as `"\n\nFonte: " + source` when a (non-empty) source was parsed. -/
def finalWhy (rest : List PStr) : PStr :=
  if (parsedSrc rest).isEmpty then truncWords 20 (parsedWhy rest)
  else truncWords 20 (parsedWhy rest) ++ s2l "\n\nFonte: " ++ parsedSrc rest

/-- `Summarizer.format_summary` (summarize.py lines 380-447). -/
def format_summary (raw : PStr) : Summary :=
  match linesOf raw with
  | [] => emptyLinesSummary
  | first :: rest =>
    { title := truncWords 10 (subLabels titleLabels first)
      bullets := normalizedBullets rest
      why_it_matters := finalWhy rest }

/-! ## Keyword table `Summarizer._generate_why_it_matters` (lines 356-378) -/

def phraseAI : PStr :=
  s2l "Aggiornamenti sull\x27intelligenza artificiale che potrebbero influenzare il tuo lavoro"
def phraseSecurity : PStr :=
  s2l "Informazioni di sicurezza importanti per proteggere i tuoi sistemi"
def phraseCloud : PStr :=
  s2l "Novità cloud che potrebbero ottimizzare la tua infrastruttura"
def phraseOpenSource : PStr :=
  s2l "Sviluppi nel mondo open source che potrebbero interessare i developer"
def phrasePerformance : PStr :=
  s2l "Miglioramenti delle prestazioni che potrebbero accelerare i tuoi progetti"
def phraseCost : PStr :=
  s2l "Informazioni sui costi che potrebbero far risparmiare la tua azienda"
def phraseLaunch : PStr :=
  s2l "Nuovi strumenti o servizi che potrebbero essere utili per il tuo lavoro"
def phraseUpdate : PStr :=
  s2l "Aggiornamenti che potrebbero migliorare i tuoi flussi di lavoro"
def phraseGeneric : PStr :=
  s2l "Sviluppi tecnologici che potrebbero impattare il settore"

def kwAI : List PStr :=
  [s2l "ai", s2l "artificial intelligence", s2l "machine learning", s2l "ml"]
def kwSecurity : List PStr :=
  [s2l "security", s2l "sicurezza", s2l "vulnerability", s2l "breach"]
def kwCloud : List PStr := [s2l "aws", s2l "cloud", s2l "serverless", s2l "lambda"]
def kwOpenSource : List PStr :=
  [s2l "github", s2l "git", s2l "repository", s2l "open source"]
def kwPerformance : List PStr :=
  [s2l "performance", s2l "optimization", s2l "speed", s2l "faster"]
def kwCost : List PStr := [s2l "cost", s2l "pricing", s2l "save", s2l "budget"]
def kwLaunch : List PStr := [s2l "new", s2l "launch", s2l "announce", s2l "release"]
def kwUpdate : List PStr := [s2l "update", s2l "version", s2l "feature"]

/-- `any(word in content_lower for word in group)`. -/
def groupMatches (contentLower : PStr) (group : List PStr) : Bool :=
  group.any (fun w => pyContains contentLower w)

/-- `Summarizer._generate_why_it_matters` (summarize.py lines 356-378):
the if/elif chain over the keyword groups, in source order. -/
def generate_why_it_matters (content : PStr) : PStr :=
  let cl := pyLower content
  if groupMatches cl kwAI then phraseAI
  else if groupMatches cl kwSecurity then phraseSecurity
  else if groupMatches cl kwCloud then phraseCloud
  else if groupMatches cl kwOpenSource then phraseOpenSource
  else if groupMatches cl kwPerformance then phrasePerformance
  else if groupMatches cl kwCost then phraseCost
  else if groupMatches cl kwLaunch then phraseLaunch
  else if groupMatches cl kwUpdate then phraseUpdate
  else phraseGeneric

/-! ## Extractive fallback `Summarizer.fallback_summarize` (lines 296-354) -/

/-- Lines 299-300: strip markup tags, collapse whitespace runs, strip. -/
def cleanFallbackText (content : PStr) : PStr :=
  pyStrip (collapseWs (stripTags content))

/-- The `[.!?]` sentence-separator class of line 306. -/
def sentSep (c : Nat) : Bool := c == 46 || c == 33 || c == 63

/-- Lines 306-307: split into sentence candidates on runs of `.` `!` `?`,
strip each, keep those of length above 20. -/
def sentencesOf (text : PStr) : List PStr :=
  ((splitRuns sentSep text).map pyStrip).filter (fun s => 20 < s.length)

/-- Lines 314-319: score of the sentence at index `i` (among the first 10)
of a candidate list of total length `n`:
`(1.0 - i/n) * 0.6 + min(len/100, 1.0) * 0.4`. -/
def sentenceScore (n i len : Nat) : ℚ :=
  (1 - (i : ℚ) / (n : ℚ)) * 0.6 + min ((len : ℚ) / 100) 1 * 0.4

/-- Lines 313-319: the `(sentence, score)` pairs for the first 10 candidates. -/
def scoredSentences (sents : List PStr) : List (PStr × ℚ) :=
  (sents.take 10).enum.map (fun p => (p.2, sentenceScore sents.length p.1 p.2.length))

/-- Line 322: `scored_sentences.sort(key=lambda x: x[1], reverse=True)` —
Python's stable sort, descending on the score; modelled by the stable
`List.mergeSort` with the reversed comparison. -/
def sortedScored (sents : List PStr) : List (PStr × ℚ) :=
  (scoredSentences sents).mergeSort (fun a b => decide (b.2 ≤ a.2))

/-- Line 323: the top 3 sentences after the descending stable sort. -/
def topSentences (sents : List PStr) : List PStr :=
  ((sortedScored sents).take 3).map (fun p => p.1)

/-- Lines 326-329: title from the first 8 words of the top sentence, or the
fixed pair when none. -/
def fallbackTitle (sents : List PStr) : PStr :=
  joinSpace
    (match topSentences sents with
     | [] => [s2l "Riassunto", s2l "articolo"]
     | t :: _ => (pyWords t).take 8)

/-- Lines 333-338: first 30 words of a sentence, with `...` appended when
the result does not end in `.`. -/
def mkFallbackBullet (s : PStr) : PStr :=
  let b := joinSpace ((pyWords s).take 30)
  if b.getLast? == some 46 then b else b ++ s2l "..."

/-- The fixed padding bullet of line 342. -/
def fallbackPadBullet : PStr := s2l "Informazioni aggiuntive nell\x27articolo completo..."

/-- Lines 332-342: bullets from the top sentences, padded to 3. -/
def fallbackBullets (sents : List PStr) : List PStr :=
  let bs := (topSentences sents).map mkFallbackBullet
  bs ++ List.replicate (3 - bs.length) fallbackPadBullet

/-- The fixed result of line 303 for empty cleaned text, up to the URL. -/
def unavailableTemplate : PStr :=
  s2l "Contenuto non disponibile\n• Articolo vuoto o non leggibile\n• Consultare il link originale\n• Informazioni potrebbero essere disponibili online\nPerché conta: Il contenuto potrebbe contenere informazioni rilevanti\n\nFonte: "

/-- The fixed result of line 310 when no sentence candidate survives, up to
the URL. -/
def tooShortTemplate : PStr :=
  s2l "Contenuto breve disponibile\n• Testo troppo breve per il riassunto\n• Consultare l\x27articolo completo\n• Dettagli nel link originale\nPerché conta: Informazioni aggiuntive potrebbero essere importanti\n\nFonte: "

/-- `Summarizer.fallback_summarize` (summarize.py lines 296-354). -/
def fallback_summarize (content url : PStr) : PStr :=
  if (cleanFallbackText content).isEmpty then unavailableTemplate ++ url
  else if (sentencesOf (cleanFallbackText content)).isEmpty then
    tooShortTemplate ++ url
  else
    fallbackTitle (sentencesOf (cleanFallbackText content)) ++ [10]
      ++ (((fallbackBullets (sentencesOf (cleanFallbackText content))).take 3).map
            (fun b => s2l "• " ++ b ++ [10])).flatten
      ++ s2l "Perché conta: "
      ++ generate_why_it_matters (cleanFallbackText content)
      ++ s2l "\n\nFonte: " ++ url

/-! ## Remote invoker `Summarizer.bedrock_summarize` (lines 154-294) -/

/-- `BedrockConfig` (config.py lines 20-26). -/
structure BedrockConfig where
  model_id : PStr
  region : PStr
  max_tokens : Nat

/-- `"llama" in self.config.model_id.lower()` (lines 178, 194, 235). -/
def isLlama (cfg : BedrockConfig) : Bool :=
  pyContains (pyLower cfg.model_id) (s2l "llama")

/-- Part of the built-in prompt template (lines 58-87) before `{content}`. -/
def tplBefore : PStr :=
  s2l "Riassumi questo articolo in italiano seguendo ESATTAMENTE questo formato:\n\nFORMATO RICHIESTO:\n- Una riga di titolo (massimo 10 parole, senza prefissi come \"Titolo:\")\n- Tre punti elenco, ciascuno massimo 30 parole\n- Una riga finale che inizia ESATTAMENTE con \"Perché ti può interessare:\" seguita da massimo 20 parole\n- Alla fine inserisci la fonte\n\nESEMPIO OUTPUT:\nAWS lancia nuovo servizio di machine learning\n\n• Servizio completamente gestito per modelli di deep learning\n• Integrazione nativa con S3 e altri servizi AWS esistenti  \n• Pricing pay-per-use senza costi fissi o minimi\n\nPerché ti può interessare: Democratizza l\x27accesso al machine learning per sviluppatori senza esperienza specifica in AI.\n\nFonte: https://aws.amazon.com/blogs/aws/example-article\n\nREGOLE CRITICHE:\n1. Usa SOLO informazioni presenti nell\x27articolo originale\n2. Non inventare dettagli, date o informazioni non menzionate\n3. Mantieni il tono professionale ma accessibile\n4. Usa terminologia tecnica appropriata quando necessaria\n5. Concentrati sui benefici pratici e l\x27impatto per gli utenti\n6. Includi SEMPRE la fonte (URL) alla fine del riassunto\n7. ATTENZIONE: Devi scrivere ESATTAMENTE \"Perché ti può interessare:\" - NON usare \"Perché conta:\", \"Why it matters:\", o altre varianti\n8. La frase \"Perché ti può interessare:\" è OBBLIGATORIA e deve essere scritta ESATTAMENTE così\n\nARTICOLO DA RIASSUMERE:\n"

/-- Part of the built-in template between `{content}` and `{url}`. -/
def tplBetween : PStr := s2l "\n\nURL ARTICOLO:\n"

/-- Part of the built-in template after `{url}`. -/
def tplAfter : PStr :=
  s2l "\n\nInizia il riassunto ora, ricordando di usare ESATTAMENTE \"Perché ti può interessare:\" nella riga finale:"

/-- `self.prompt_template.format(content=content, url=url)` (line 175) with
the built-in default template (lines 57-93; the shipped template file has
the same text). -/
def promptTemplate (content url : PStr) : PStr :=
  tplBefore ++ content ++ tplBetween ++ url ++ tplAfter

/-- The text of `_format_llama_prompt` before the prompt (lines 154-162). -/
def llamaPre : PStr :=
  s2l "<|begin_of_text|><|start_header_id|>system<|end_header_id|>\n\nSei un assistente che crea riassunti di articoli tecnici in italiano. Segui ESATTAMENTE il formato richiesto.<|eot_id|><|start_header_id|>user<|end_header_id|>\n\n"

/-- The text of `_format_llama_prompt` after the prompt. -/
def llamaPost : PStr :=
  s2l "<|eot_id|><|start_header_id|>assistant<|end_header_id|>\n\n"

/-- `Summarizer._format_llama_prompt` (lines 154-162): wrap the prompt in
the Llama 3 chat-turn delimiter tags. -/
def llamaWrap (prompt : PStr) : PStr := llamaPre ++ prompt ++ llamaPost

/-- The prompt actually dispatched (lines 175-179): the filled template,
additionally wrapped in chat tags for the llama family. -/
def promptFor (cfg : BedrockConfig) (content url : PStr) : PStr :=
  let p := promptTemplate content url
  if isLlama cfg then llamaWrap p else p

/-- A JSON value, as produced by `json.dumps`/`json.loads`; numbers carry
exact rationals. -/
inductive JVal where
  | jstr (s : PStr)
  | jnum (n : ℚ)
  | jarr (xs : List JVal)
  | jobj (fields : List (PStr × JVal))
  | jnull

/-- `body[k]` / `k in body` for an object: the first field named `k`. -/
def JVal.lookup (v : JVal) (k : PStr) : Option JVal :=
  match v with
  | .jobj fields => (fields.find? (fun p => p.1 == k)).map (fun p => p.2)
  | _ => none

/-- `body.get(k)` restricted to numeric values. -/
def jGetNum (v : JVal) (k : PStr) : Option ℚ :=
  match v.lookup k with
  | some (.jnum n) => some n
  | _ => none

/-- The `request_body` of lines 194-212, branching on the model family:
legacy prompt format for llama, Invoke API messages format otherwise. -/
def buildRequestBody (cfg : BedrockConfig) (prompt : PStr) : JVal :=
  if isLlama cfg then
    .jobj [(s2l "prompt", .jstr prompt),
           (s2l "max_gen_len", .jnum cfg.max_tokens),
           (s2l "temperature", .jnum 0.3),
           (s2l "top_p", .jnum 0.9)]
  else
    .jobj [(s2l "messages",
            .jarr [.jobj [(s2l "role", .jstr (s2l "user")),
                          (s2l "content", .jarr [.jobj [(s2l "text", .jstr prompt)]])]]),
           (s2l "inferenceConfig",
            .jobj [(s2l "maxTokens", .jnum cfg.max_tokens),
                   (s2l "temperature", .jnum 0.3)])]

/-- The request dispatched to `invoke_model` (lines 175-222): the
model-family request body built over the (possibly chat-wrapped) filled
template. -/
def dispatchedRequest (cfg : BedrockConfig) (content url : PStr) : JVal :=
  buildRequestBody cfg (promptFor cfg content url)

/-- `x or y` on optional token counts (line 239): Python `or` takes the
second operand when the first is `None` or `0`. -/
def pyOrNum (a b : Option ℚ) : Option ℚ :=
  match a with
  | some n => if n == 0 then b else some n
  | none => b

/-- Llama response parsing (lines 235-247): the `generation` field holds the
text, tokens from `generation_token_count or prompt_token_count`. -/
def parseLlamaBody (body : JVal) : Option PStr × Option ℚ :=
  match body.lookup (s2l "generation") with
  | some (.jstr g) =>
    (some g, pyOrNum (jGetNum body (s2l "generation_token_count"))
                     (jGetNum body (s2l "prompt_token_count")))
  | _ => (none, none)

/-- Nova / Mistral response parsing (lines 249-270): text nested under
`output.message.content[0].text` (default `""`), tokens as the sum of the
usage object's `inputTokens` and `outputTokens` (defaults 0) when a
`usage` object is present. -/
def parseNovaBody (body : JVal) : Option PStr × Option ℚ :=
  match body.lookup (s2l "output") with
  | some out =>
    match out.lookup (s2l "message") with
    | some msg =>
      match msg.lookup (s2l "content") with
      | some (.jarr (first :: _)) =>
        let text := match first.lookup (s2l "text") with
          | some (.jstr t) => t
          | _ => []
        let toks := match body.lookup (s2l "usage") with
          | some usage =>
            some ((jGetNum usage (s2l "inputTokens")).getD 0
                  + (jGetNum usage (s2l "outputTokens")).getD 0)
          | none => none
        (some text, toks)
      | _ => (none, none)
    | _ => (none, none)
  | none => (none, none)

/-- Per-family extraction of `(summary_text, tokens_used)` from the parsed
response body (lines 229-270). -/
def extractText (cfg : BedrockConfig) (body : JVal) : Option PStr × Option ℚ :=
  if isLlama cfg then parseLlamaBody body else parseNovaBody body

/-- What the single `invoke_model` attempt does: raises a `ClientError`,
raises some other exception, or yields a parsed JSON response body after a
measured wall-clock time. -/
inductive BedrockOutcome where
  | clientError (code msg : PStr)
  | unexpectedError (msg : PStr)
  | response (body : JVal) (elapsedMs : Int)

/-- A Python exception value. -/
inductive PyErr where
  | typeError (msg : PStr)
  | keyError (msg : PStr)
deriving DecidableEq

/-- `Summarizer.bedrock_summarize` (lines 164-294), as a fallible
computation yielding the `(summary_text, tokens_used, response_time_ms)`
triple. The no-client check of lines 170-172 comes first and short
circuits to the no-result triple. The prompt formatting of line 175
(`self.prompt_template.format(...)`) runs next, before the `try` of
line 184: when the loaded template contains a stray placeholder,
`str.format` raises `KeyError` past the function's boundary
(`formatErr` carries that case; with the built-in default template the
formatting is total and `formatErr` is `none`). Inside the `try`, both
exception handlers return the no-result triple (lines 278-294), and
empty or whitespace-only extracted text returns the no-result triple,
otherwise the stripped text (lines 272-276). -/
def bedrock_summarize (cfg : BedrockConfig) (clientConfigured : Bool)
    (formatErr : Option PStr) (outcome : BedrockOutcome) :
    Except PyErr (Option PStr × Option ℚ × Option Int) :=
  if !clientConfigured then .ok (none, none, none)
  else
    match formatErr with
    | some msg => .error (.keyError msg)
    | none =>
      match outcome with
      | .clientError _ _ => .ok (none, none, none)
      | .unexpectedError _ => .ok (none, none, none)
      | .response body ms =>
        match extractText cfg body with
        | (some t, toks) =>
          if (pyStrip t).isEmpty then .ok (none, none, none)
          else .ok (some (pyStrip t), toks, some ms)
        | (none, _) => .ok (none, none, none)

/-! ## Orchestration `Summarizer.summarize` (lines 95-152) -/

/-- Generation metadata attached to the returned Summary by attribute
assignment (lines 107-109, 126-128; permitted on a dataclass instance). -/
structure SummaryMeta where
  model_used : PStr
  tokens_used : Option ℚ
  response_time_ms : Option Int
deriving DecidableEq

/-- The ambient state a `summarize` call depends on besides the item: the
Bedrock client (line 101), what the single remote attempt would do, and
whether the loaded prompt template makes `str.format` raise on line 175
inside `bedrock_summarize` (a stray placeholder in a template file read
at initialization; `none` for the built-in default template). -/
structure RemoteEnv where
  clientConfigured : Bool
  outcome : BedrockOutcome
  templateFormatErr : Option PStr := none

/-- `item.title[:50] + "..." if len(item.title) > 50 else item.title`
(line 142). -/
def emergencyTitle (item : FeedItem) : PStr :=
  if 50 < item.title.length then item.title.take 50 ++ s2l "..." else item.title

/-- The keywords of the `Summary(...)` call in the except branch
(lines 141-152). -/
def emergencyCallKwargs : List String :=
  ["title", "bullets", "why_it_matters", "model_used", "tokens_used",
   "response_time_ms"]

/-- The except branch of `summarize` (lines 136-152): it calls
`Summary(title=…, bullets=…, why_it_matters=…, model_used="error",
tokens_used=None, response_time_ms=None)`; the dataclass constructor
raises `TypeError` when a keyword is not a field. -/
def emergencyHandler (item : FeedItem) : Except PyErr (Summary × SummaryMeta) :=
  if dataclassAccepts summaryInitFields emergencyCallKwargs then
    .ok ({ title := emergencyTitle item
           bullets := [s2l "Contenuto non disponibile per il riassunto",
                       s2l "Consultare l\x27articolo originale per dettagli",
                       s2l "Errore durante l\x27elaborazione del testo"]
           why_it_matters :=
             s2l "Informazioni importanti disponibili nell\x27articolo completo" },
         ⟨s2l "error", none, none⟩)
  else
    .error (.typeError (s2l "__init__ got an unexpected keyword argument"))

/-- The body of the `try` block of `summarize` (lines 99-134): attempt
Bedrock when a client exists (an exception raised by the attempt, such as
the template-formatting `KeyError` escaping `bedrock_summarize`,
propagates), use the parsed Bedrock text when one is returned, otherwise
parse the extractive fallback text. -/
def summarizeTryBody (env : RemoteEnv) (cfg : BedrockConfig) (item : FeedItem) :
    Except PyErr (Summary × SummaryMeta) :=
  if env.clientConfigured then
    match bedrock_summarize cfg true env.templateFormatErr env.outcome with
    | .error e => .error e
    | .ok (some text, toks, rt) =>
      .ok (format_summary text, ⟨cfg.model_id, toks, rt⟩)
    | .ok (none, _, _) =>
      .ok (format_summary (fallback_summarize item.content item.link),
           ⟨s2l "fallback", none, none⟩)
  else
    .ok (format_summary (fallback_summarize item.content item.link),
         ⟨s2l "fallback", none, none⟩)

/-- `Summarizer.summarize` (lines 95-152): the try body with the
catch-all except branch around it. -/
def summarize (env : RemoteEnv) (cfg : BedrockConfig) (item : FeedItem) :
    Except PyErr (Summary × SummaryMeta) :=
  match summarizeTryBody env cfg item with
  | .ok r => .ok r
  | .error _ => emergencyHandler item

/-! ## Spec-side definitions, written from the specification's wording, to be
compared with the definitions transcribed from the source. -/

/-- Spec wording: `positionScore = 1 - (index / totalSentenceCount)`. -/
def specPositionScore (i n : Nat) : ℚ := 1 - (i : ℚ) / (n : ℚ)

/-- Spec wording: `lengthScore = min(sentenceCharLength / 100, 1.0)`. -/
def specLengthScore (len : Nat) : ℚ := min ((len : ℚ) / 100) 1

/-- Spec wording: `score = 0.6 * positionScore + 0.4 * lengthScore`. -/
def specScore (i n len : Nat) : ℚ :=
  0.6 * specPositionScore i n + 0.4 * specLengthScore len

/-- Spec wording: score at most the first 10 candidate sentences. -/
def specScored (sents : List PStr) : List (PStr × ℚ) :=
  (sents.take 10).enum.map (fun p => (p.2, specScore p.1 sents.length p.2.length))

/-- Spec wording: sort descending by score, ties broken by original order
(a stable descending sort). -/
def specSorted (sents : List PStr) : List (PStr × ℚ) :=
  (specScored sents).mergeSort (fun a b => decide (a.2 ≥ b.2))

/-- Spec wording: take the top 3 sentences. -/
def specTop3 (sents : List PStr) : List PStr :=
  ((specSorted sents).take 3).map (fun p => p.1)

/-- Spec wording, family A ("legacy/completion" style): single prompt string,
generation-length cap, temperature 0.3, top-p 0.9. -/
def familyALegacyRequest (prompt : PStr) (maxTokens : Nat) : JVal :=
  .jobj [(s2l "prompt", .jstr prompt),
         (s2l "max_gen_len", .jnum maxTokens),
         (s2l "temperature", .jnum 0.3),
         (s2l "top_p", .jnum 0.9)]

/-- Spec wording, family B ("chat/invoke" style): a message list with text
parts plus an inference-config object carrying the token cap and
temperature. -/
def familyBChatRequest (prompt : PStr) (maxTokens : Nat) : JVal :=
  .jobj [(s2l "messages",
          .jarr [.jobj [(s2l "role", .jstr (s2l "user")),
                        (s2l "content", .jarr [.jobj [(s2l "text", .jstr prompt)]])]]),
         (s2l "inferenceConfig",
          .jobj [(s2l "maxTokens", .jnum maxTokens),
                 (s2l "temperature", .jnum 0.3)])]

/-- Spec wording: the fixed ordered table of keyword groups and phrases
(AI/ML, security, cloud, open-source, performance, cost, launch/new,
update/feature). -/
def whyTable : List (List PStr × PStr) :=
  [(kwAI, phraseAI), (kwSecurity, phraseSecurity), (kwCloud, phraseCloud),
   (kwOpenSource, phraseOpenSource), (kwPerformance, phrasePerformance),
   (kwCost, phraseCost), (kwLaunch, phraseLaunch), (kwUpdate, phraseUpdate)]

/-- Spec wording: the phrase of the first group with any matching keyword,
or the generic fallback phrase when no group matches. -/
def specWhy (content : PStr) : PStr :=
  match whyTable.find? (fun e => groupMatches (pyLower content) e.1) with
  | some e => e.2
  | none => phraseGeneric

/-- The metadata attached on the fallback path (lines 126-128). -/
def fallbackMeta : SummaryMeta := ⟨s2l "fallback", none, none⟩

/-! ## Word-splitting lemmas -/

theorem splitEach_ne_nil (p : Nat → Bool) (l : PStr) : splitEach p l ≠ [] := by
  induction l with
  | nil => simp [splitEach]
  | cons c cs ih =>
    simp only [splitEach]
    split
    · simp
    · cases h : splitEach p cs with
      | nil => exact absurd h ih
      | cons t ts => simp

theorem mem_splitEach (p : Nat → Bool) (l : PStr) :
    ∀ w ∈ splitEach p l, ∀ c ∈ w, p c = false := by
  induction l with
  | nil =>
    intro w hw c hc
    simp only [splitEach, List.mem_singleton] at hw
    subst hw
    simp at hc
  | cons a cs ih =>
    intro w hw c hc
    simp only [splitEach] at hw
    by_cases hp : p a
    · rw [if_pos hp] at hw
      rw [List.mem_cons] at hw
      rcases hw with h | h
      · subst h; simp at hc
      · exact ih w h c hc
    · rw [if_neg hp] at hw
      cases h : splitEach p cs with
      | nil => exact absurd h (splitEach_ne_nil p cs)
      | cons t ts =>
        rw [h] at hw
        simp only [List.modifyHead_cons, List.mem_cons] at hw
        rcases hw with hweq | hmem
        · subst hweq
          rcases List.mem_cons.mp hc with hca | hct
          · rw [hca]; simpa using hp
          · exact ih t (by rw [h]; exact List.mem_cons_self t ts) c hct
        · exact ih w (by rw [h]; exact List.mem_cons_of_mem t hmem) c hc

theorem splitEach_append (p : Nat → Bool) (w r : PStr)
    (hw : ∀ c ∈ w, p c = false) :
    splitEach p (w ++ r) = (splitEach p r).modifyHead (fun t => w ++ t) := by
  induction w with
  | nil =>
    simp only [List.nil_append]
    cases h : splitEach p r with
    | nil => exact absurd h (splitEach_ne_nil p r)
    | cons t ts => simp
  | cons a w ih =>
    have ha : p a = false := hw a (List.mem_cons_self a w)
    have ih2 := ih (fun c hc => hw c (List.mem_cons_of_mem a hc))
    show splitEach p (a :: (w ++ r)) = _
    simp only [splitEach, List.append_eq, ha, Bool.false_eq_true, if_false]
    rw [ih2]
    cases h : splitEach p r with
    | nil => exact absurd h (splitEach_ne_nil p r)
    | cons t ts => simp

theorem pyWords_joinSpace (ws : List PStr)
    (h : ∀ w ∈ ws, w.isEmpty = false ∧ ∀ c ∈ w, isSpace c = false) :
    pyWords (joinSpace ws) = ws := by
  induction ws with
  | nil => rfl
  | cons w ws ih =>
    obtain ⟨hw, hwc⟩ := h w (List.mem_cons_self w ws)
    cases ws with
    | nil =>
      show pyWords (joinSpace [w]) = [w]
      unfold pyWords
      rw [show joinSpace [w] = w ++ [] from (List.append_nil w).symm ▸ rfl]
      rw [splitEach_append isSpace w [] hwc]
      simp [splitEach, hw]
    | cons w2 ws2 =>
      show pyWords (w ++ 32 :: joinSpace (w2 :: ws2)) = w :: w2 :: ws2
      unfold pyWords
      rw [splitEach_append isSpace w _ hwc]
      have h32 : isSpace 32 = true := rfl
      simp only [splitEach, h32, if_true]
      simp only [List.modifyHead, List.append_nil, List.filter, hw]
      have := ih (fun x hx => h x (List.mem_cons_of_mem w hx))
      unfold pyWords at this
      simpa [hw] using this

theorem mem_pyWords (l : PStr) :
    ∀ w ∈ pyWords l, w.isEmpty = false ∧ ∀ c ∈ w, isSpace c = false := by
  intro w hw
  unfold pyWords at hw
  have h1 := List.of_mem_filter hw
  have h2 := List.mem_of_mem_filter hw
  refine ⟨by simpa using h1, mem_splitEach isSpace l w h2⟩

/-- Word-count truncation really bounds the word count. -/
theorem wordCount_truncWords_le (k : Nat) (l : PStr) :
    wordCount (truncWords k l) ≤ k := by
  unfold wordCount truncWords
  rw [pyWords_joinSpace _ (fun w hw => mem_pyWords l w (List.mem_of_mem_take hw))]
  simp [List.length_take]

theorem subLabels_cons (lab : PStr) (labs : List PStr) (l : PStr) :
    subLabels (lab :: labs) l =
      if pyStartsWith (pyLower l) lab then (l.drop lab.length).dropWhile isSpace
      else subLabels labs l := rfl

theorem isPrefixOf_cons_head {a : Nat} {p l : PStr}
    (h : (a :: p).isPrefixOf l = true) : ∃ t, l = a :: t := by
  cases l with
  | nil => simp [List.isPrefixOf] at h
  | cons b t =>
    simp only [List.isPrefixOf, Bool.and_eq_true, beq_iff_eq] at h
    exact ⟨t, by rw [h.1]⟩

/-- A line whose first character does not lower to `t` (116) is left
unchanged by the title-label regex. -/
theorem subLabels_title_id (c : Nat) (t : PStr) (hc : lowerChar c ≠ 116) :
    subLabels titleLabels (c :: t) = (c :: t) := by
  have h1 : pyStartsWith (pyLower (c :: t)) (s2l "titolo:") = false := by
    show (s2l "titolo:").isPrefixOf (lowerChar c :: pyLower t) = false
    rw [show s2l "titolo:" = 116 :: s2l "itolo:" from by decide]
    simp only [List.isPrefixOf, Bool.and_eq_false_iff]
    exact Or.inl (by simpa using fun hx => hc hx.symm)
  have h2 : pyStartsWith (pyLower (c :: t)) (s2l "title:") = false := by
    show (s2l "title:").isPrefixOf (lowerChar c :: pyLower t) = false
    rw [show s2l "title:" = 116 :: s2l "itle:" from by decide]
    simp only [List.isPrefixOf, Bool.and_eq_false_iff]
    exact Or.inl (by simpa using fun hx => hc hx.symm)
  rw [show titleLabels = [s2l "titolo:", s2l "title:"] from rfl]
  rw [subLabels_cons, if_neg (by simp [h1]), subLabels_cons, if_neg (by simp [h2])]
  rfl

theorem format_summary_eq_nil (raw : PStr) (h : linesOf raw = []) :
    format_summary raw = emptyLinesSummary := by
  unfold format_summary
  rw [h]

theorem format_summary_eq_cons (raw first : PStr) (rest : List PStr)
    (h : linesOf raw = first :: rest) :
    format_summary raw =
      { title := truncWords 10 (subLabels titleLabels first)
        bullets := normalizedBullets rest
        why_it_matters := finalWhy rest } := by
  unfold format_summary
  rw [h]

theorem length_normalizedBullets (rest : List PStr) :
    (normalizedBullets rest).length = 3 := by
  unfold normalizedBullets
  by_cases h : (rest.filterMap bulletOfLine).length < 3
  · rw [if_pos h]
    simp only [List.length_map, List.length_take, List.length_append,
      List.length_replicate]
    omega
  · rw [if_neg h]
    simp only [List.length_map, List.length_take]
    omega

/-! ## Claim theorems -/

/-- **C1** (code-bug evidence). When an unexpected exception escapes the
remote-attempt/fallback/parse sequence inside `summarize`'s `try` block,
the catch-all branch does not return the fixed emergency Summary: the
`Summary(...)` call of summarize.py lines 141-152 passes the keywords
`model_used`, `tokens_used` and `response_time_ms`, which the three-field
dataclass constructor of models.py lines 19-26 rejects, so the handler
itself raises `TypeError` and `summarize` propagates an exception to the
caller instead of returning a Summary. Evaluated here at a concrete
environment in which the template-formatting `KeyError` of line 175
escapes `bedrock_summarize` into the `try` body (a loaded prompt template
with a stray placeholder) for a concrete feed item. -/
theorem summarize_catch_all_raises_type_error :
    summarize
      { clientConfigured := true
        outcome := .response .jnull 5
        templateFormatErr := some (s2l "badkey") }
      { model_id := s2l "amazon.nova-micro-v1:0"
        region := s2l "us-east-1"
        max_tokens := 1000 }
      { title := s2l "Test Article"
        link := s2l "https://example.com/a"
        published := 0
        content := s2l "Some body text."
        feed_url := s2l "https://example.com/feed" }
      = .error (.typeError (s2l "__init__ got an unexpected keyword argument")) := by
  rfl

/-- **C2 (counterexample)**: at the concrete raw text `""` there are fewer
than 3 bullet-marker lines (there are no non-empty lines at all), yet the
returned bullets are not obtained by padding with the fixed placeholder
string: none of the three fixed bullets of the no-lines branch equals the
placeholder. -/
theorem format_summary_empty_no_placeholder :
    linesOf (s2l "") = [] ∧
    (format_summary (s2l "")).bullets.length = 3 ∧
    placeholderBullet ∉ (format_summary (s2l "")).bullets := by
  decide

/-- **C2 (amended)**: for every raw text the returned bullets list has
length exactly 3; when the raw text has at least one non-empty trimmed
line, fewer than 3 extracted bullet lines are padded with the fixed
placeholder string and more than 3 are truncated to the first 3 in
original order (each bullet then word-capped at 30 words); when there is
no non-empty line, the fixed no-lines Summary is returned instead. -/
theorem format_summary_bullets_normalized (raw : PStr) :
    (format_summary raw).bullets.length = 3 ∧
    (∀ first rest, linesOf raw = first :: rest →
      (3 ≤ (rest.filterMap bulletOfLine).length →
        (format_summary raw).bullets =
          ((rest.filterMap bulletOfLine).take 3).map (truncWords 30)) ∧
      ((rest.filterMap bulletOfLine).length < 3 →
        (format_summary raw).bullets =
          ((rest.filterMap bulletOfLine)
            ++ List.replicate (3 - (rest.filterMap bulletOfLine).length)
                placeholderBullet).map (truncWords 30))) := by
  constructor
  · cases hl : linesOf raw with
    | nil => rw [format_summary_eq_nil raw hl]; rfl
    | cons first rest =>
      rw [format_summary_eq_cons raw first rest hl]
      exact length_normalizedBullets rest
  · intro first rest h
    rw [format_summary_eq_cons raw first rest h]
    constructor
    · intro h3
      show normalizedBullets rest = _
      unfold normalizedBullets
      rw [if_neg (Nat.not_lt.mpr h3)]
    · intro h3
      show normalizedBullets rest = _
      unfold normalizedBullets
      rw [if_pos h3]
      have hlen : ((rest.filterMap bulletOfLine)
          ++ List.replicate (3 - (rest.filterMap bulletOfLine).length)
              placeholderBullet).length = 3 := by
        simp only [List.length_append, List.length_replicate]
        omega
      rw [List.take_of_length_le (Nat.le_of_eq hlen)]

/-- **C2 witness**: the amended theorem applied to the concrete raw text
`"T\n• A"`, which has one non-empty line beyond the title and one
extracted bullet, hence two placeholder paddings. -/
theorem format_summary_bullets_normalized_witness :
    (format_summary (s2l "T\n• A")).bullets.length = 3 ∧
    (format_summary (s2l "T\n• A")).bullets =
      (([s2l "• A"].filterMap bulletOfLine
        ++ List.replicate (3 - ([s2l "• A"].filterMap bulletOfLine).length)
            placeholderBullet).map (truncWords 30)) :=
  ⟨(format_summary_bullets_normalized (s2l "T\n• A")).1,
   ((format_summary_bullets_normalized (s2l "T\n• A")).2 (s2l "T") [s2l "• A"]
      (by decide)).2 (by decide)⟩

/-- **C4**: for every raw text, the parsed Summary's title has at most 10
words, every bullet has at most 30 words (the configured per-bullet cap
of line 438), and the why-it-matters text has at most 20 words before the
appended source line; truncation is by word count (`" ".join(s.split()[:k])`)
and is applied unconditionally, the title being the word-truncation of the
first line with its optional label stripped and the why-it-matters field
being the word-truncated why text followed by the optional source line. -/
theorem format_summary_word_caps (raw : PStr) :
    wordCount (format_summary raw).title ≤ 10 ∧
    (∀ b ∈ (format_summary raw).bullets, wordCount b ≤ 30) ∧
    (linesOf raw = [] → wordCount (format_summary raw).why_it_matters ≤ 20) ∧
    (∀ first rest, linesOf raw = first :: rest →
      wordCount (truncWords 20 (parsedWhy rest)) ≤ 20 ∧
      (format_summary raw).title = truncWords 10 (subLabels titleLabels first) ∧
      (format_summary raw).why_it_matters =
        truncWords 20 (parsedWhy rest) ++
          (if (parsedSrc rest).isEmpty then []
           else s2l "\n\nFonte: " ++ parsedSrc rest)) := by
  cases hl : linesOf raw with
  | nil =>
    rw [format_summary_eq_nil raw hl]
    refine ⟨by decide, by decide, fun _ => by decide, fun first rest h => ?_⟩
    exact absurd h.symm (List.cons_ne_nil first rest)
  | cons first0 rest0 =>
    rw [format_summary_eq_cons raw first0 rest0 hl]
    refine ⟨wordCount_truncWords_le 10 _, ?_, ?_, ?_⟩
    · intro b hb
      unfold normalizedBullets at hb
      obtain ⟨b0, _, rfl⟩ := List.mem_map.mp hb
      exact wordCount_truncWords_le 30 b0
    · intro h
      exact absurd h (List.cons_ne_nil first0 rest0)
    · intro first rest h
      injection h with h1 h2
      subst h1
      subst h2
      refine ⟨wordCount_truncWords_le 20 _, rfl, ?_⟩
      show finalWhy rest0 = _
      unfold finalWhy
      by_cases hs : (parsedSrc rest0).isEmpty
      · rw [if_pos hs, if_pos hs, List.append_nil]
      · rw [if_neg hs, if_neg hs, List.append_assoc]

/-- **C4 witness**: the theorem applied to a concrete raw text with a
title label, an overlong why line and a source line. -/
theorem format_summary_word_caps_witness :
    wordCount (format_summary (s2l "Titolo: T\n• A\nPerché conta: W\nFonte: S")).title
      ≤ 10 ∧
    (format_summary (s2l "Titolo: T\n• A\nPerché conta: W\nFonte: S")).why_it_matters =
      truncWords 20 (parsedWhy [s2l "• A", s2l "Perché conta: W", s2l "Fonte: S"]) ++
        (if (parsedSrc [s2l "• A", s2l "Perché conta: W", s2l "Fonte: S"]).isEmpty
         then []
         else s2l "\n\nFonte: "
           ++ parsedSrc [s2l "• A", s2l "Perché conta: W", s2l "Fonte: S"]) :=
  ⟨(format_summary_word_caps (s2l "Titolo: T\n• A\nPerché conta: W\nFonte: S")).1,
   ((format_summary_word_caps (s2l "Titolo: T\n• A\nPerché conta: W\nFonte: S")).2.2.2
      (s2l "Titolo: T") [s2l "• A", s2l "Perché conta: W", s2l "Fonte: S"]
      (by decide)).2.2⟩

/-- **C5 (counterexample)**: the remote generation invoker does throw past
its boundary on a concrete input: with a client configured and a loaded
prompt template containing a stray placeholder, the `str.format` call of
summarize.py line 175 — inside `bedrock_summarize` but before its `try`
of line 184 — raises `KeyError`, so the function raises instead of
returning the no-result triple, refuting "never throws past its
boundary" and "any unexpected exception results in a no-result return
value" as stated. -/
theorem bedrock_summarize_raises_on_template_error :
    bedrock_summarize
      { model_id := s2l "amazon.nova-micro-v1:0", region := s2l "us-east-1",
        max_tokens := 1000 }
      true (some (s2l "badkey")) (.response .jnull 5)
      = .error (.keyError (s2l "badkey")) := by
  rfl

/-- **C5 (amended)**: the remote generation invoker returns the no-result
triple rather than raising for every failure of the attempted call:
permission-denied responses, request-validation errors, any other client
error, any other exception raised during the invocation or response
parsing, and empty or absent generated text all yield
`(None, None, None)`; and when no remote client is configured at all it
short-circuits immediately to no-result without attempting a call — even
before the prompt formatting runs, so regardless of the loaded template.
The one escape is prompt-template formatting itself (line 175, after the
client check but before the `try`), which raises past the boundary when
the loaded template is malformed; with a well-formed template
(`formatErr = none`, as with the built-in default) no exception ever
escapes. -/
theorem bedrock_summarize_no_result_cases (cfg : BedrockConfig)
    (outcome : BedrockOutcome) :
    (∀ ferr, bedrock_summarize cfg false ferr outcome = .ok (none, none, none)) ∧
    (∀ code msg,
      bedrock_summarize cfg true none (.clientError code msg)
        = .ok (none, none, none)) ∧
    (∀ msg,
      bedrock_summarize cfg true none (.unexpectedError msg)
        = .ok (none, none, none)) ∧
    (∀ body ms, (∀ t, (extractText cfg body).1 = some t → pyStrip t = []) →
      bedrock_summarize cfg true none (.response body ms)
        = .ok (none, none, none)) := by
  refine ⟨fun ferr => rfl, fun code msg => rfl, fun msg => rfl,
    fun body ms h => ?_⟩
  unfold bedrock_summarize
  simp only [Bool.not_true, Bool.false_eq_true, if_false]
  cases hx : extractText cfg body with
  | mk t? toks =>
    cases t? with
    | none => rfl
    | some t =>
      have ht : pyStrip t = [] := h t (by rw [hx])
      simp [ht]

/-- **C5 witness**: the amended theorem applied to a concrete
configuration: the no-client short-circuit (even under a malformed
template) and a concrete empty response body. -/
theorem bedrock_summarize_no_result_cases_witness :
    bedrock_summarize
      { model_id := s2l "amazon.nova-micro-v1:0", region := s2l "r", max_tokens := 5 }
      false (some (s2l "badkey")) (.response .jnull 3) = .ok (none, none, none) ∧
    bedrock_summarize
      { model_id := s2l "amazon.nova-micro-v1:0", region := s2l "r", max_tokens := 5 }
      true none (.response (.jobj []) 7) = .ok (none, none, none) := by
  refine ⟨(bedrock_summarize_no_result_cases _ (.response .jnull 3)).1
    (some (s2l "badkey")), ?_⟩
  refine (bedrock_summarize_no_result_cases _ (.response .jnull 3)).2.2.2
    (.jobj []) 7 (fun t ht => ?_)
  rw [show (extractText
      { model_id := s2l "amazon.nova-micro-v1:0", region := s2l "r", max_tokens := 5 }
      (.jobj [])).1 = none from rfl] at ht
  exact Option.noConfusion ht

/-- **C6**: with no remote client configured, `summarize` is produced by the
extractive path and is deterministic: it depends only on the item's
content and link, not on the ambient remote environment nor on any other
item field, so two calls with identical input text and source URL yield
identical title, bullets and why-it-matters (indeed identical results). -/
theorem summarize_no_client_deterministic
    (env1 env2 : RemoteEnv) (cfg1 cfg2 : BedrockConfig) (item1 item2 : FeedItem)
    (h1 : env1.clientConfigured = false) (h2 : env2.clientConfigured = false)
    (hc : item1.content = item2.content) (hl : item1.link = item2.link) :
    summarize env1 cfg1 item1 =
      .ok (format_summary (fallback_summarize item1.content item1.link),
           fallbackMeta) ∧
    summarize env1 cfg1 item1 = summarize env2 cfg2 item2 := by
  have e1 : summarize env1 cfg1 item1 =
      .ok (format_summary (fallback_summarize item1.content item1.link),
           fallbackMeta) := by
    unfold summarize summarizeTryBody
    rw [h1]
    rfl
  have e2 : summarize env2 cfg2 item2 =
      .ok (format_summary (fallback_summarize item2.content item2.link),
           fallbackMeta) := by
    unfold summarize summarizeTryBody
    rw [h2]
    rfl
  exact ⟨e1, by rw [e1, e2, hc, hl]⟩

/-- **C6 witness**: two concrete calls with different environments,
configurations, titles and timestamps but identical content and link
return the same result, produced by the extractive path. -/
theorem summarize_no_client_deterministic_witness :
    summarize
      { clientConfigured := false, outcome := .response .jnull 1 }
      { model_id := s2l "m1", region := s2l "r1", max_tokens := 1 }
      { title := s2l "A", link := s2l "http://u", published := 0,
        content := s2l "Testo.", feed_url := s2l "f1" } =
    summarize
      { clientConfigured := false, outcome := .unexpectedError (s2l "boom") }
      { model_id := s2l "m2", region := s2l "r2", max_tokens := 9 }
      { title := s2l "B", link := s2l "http://u", published := 42,
        content := s2l "Testo.", feed_url := s2l "f2" } :=
  (summarize_no_client_deterministic
    { clientConfigured := false, outcome := .response .jnull 1 }
    { clientConfigured := false, outcome := .unexpectedError (s2l "boom") }
    { model_id := s2l "m1", region := s2l "r1", max_tokens := 1 }
    { model_id := s2l "m2", region := s2l "r2", max_tokens := 9 }
    { title := s2l "A", link := s2l "http://u", published := 0,
      content := s2l "Testo.", feed_url := s2l "f1" }
    { title := s2l "B", link := s2l "http://u", published := 42,
      content := s2l "Testo.", feed_url := s2l "f2" }
    rfl rfl rfl rfl).2

/-- **C7**: the extractive fallback returns the fixed "content unavailable"
templated result (fixed title, 3 fixed bullets, fixed why-it-matters,
then the source URL) whenever the cleaned text is empty, and the fixed
"content too short" templated result of the same shape whenever the
cleaned text is non-empty but no sentence candidate of trimmed length
above 20 characters survives. -/
theorem fallback_summarize_fixed_templates (content url : PStr) :
    (cleanFallbackText content = [] →
      fallback_summarize content url = unavailableTemplate ++ url) ∧
    (cleanFallbackText content ≠ [] →
      sentencesOf (cleanFallbackText content) = [] →
      fallback_summarize content url = tooShortTemplate ++ url) := by
  constructor
  · intro h
    unfold fallback_summarize
    rw [h]
    rfl
  · intro h1 h2
    unfold fallback_summarize
    rw [h2]
    have he : (cleanFallbackText content).isEmpty = false := by
      cases hcc : cleanFallbackText content with
      | nil => exact absurd hcc h1
      | cons a l => rfl
    rw [he]
    rfl

/-- **C7 witness**: the theorem applied to a concrete markup-only input
(cleaned text empty) and to a concrete too-short input (a candidate of
trimmed length 20 or less). -/
theorem fallback_summarize_fixed_templates_witness :
    fallback_summarize (s2l "<p> </p>") (s2l "http://u") =
      unavailableTemplate ++ s2l "http://u" ∧
    fallback_summarize (s2l "Hello   world.") (s2l "http://u") =
      tooShortTemplate ++ s2l "http://u" :=
  ⟨(fallback_summarize_fixed_templates (s2l "<p> </p>") (s2l "http://u")).1
      (by decide),
   (fallback_summarize_fixed_templates (s2l "Hello   world.") (s2l "http://u")).2
      (by decide) (by decide)⟩

/-- **C8**: the remote invoker branches on a case-insensitive `"llama"`
substring of the model identifier. The llama family gets the legacy
request (single prompt string, `max_gen_len` cap, temperature 0.3,
top-p 0.9) with the chat-turn delimiter tags wrapped around the prompt
before dispatch, and its generated text is read from the single
`generation` field; every other model gets the chat/invoke request
(message list with text parts plus an inference-config object with the
token cap and temperature), its text is read under
`output.message.content[0].text`, and its total token count is the sum of
the usage object's input and output token counts. -/
theorem bedrock_model_family_branching (cfg : BedrockConfig)
    (prompt content url : PStr) (body : JVal) :
    buildRequestBody cfg prompt =
      (if isLlama cfg then familyALegacyRequest prompt cfg.max_tokens
       else familyBChatRequest prompt cfg.max_tokens) ∧
    promptFor cfg content url =
      (if isLlama cfg then llamaWrap (promptTemplate content url)
       else promptTemplate content url) ∧
    extractText cfg body =
      (if isLlama cfg then parseLlamaBody body else parseNovaBody body) ∧
    (parseLlamaBody body).1 =
      (match body.lookup (s2l "generation") with
       | some (.jstr g) => some g
       | _ => none) ∧
    (∀ t tailitems it ot usagetail,
      parseNovaBody
        (.jobj [(s2l "output",
                 .jobj [(s2l "message",
                         .jobj [(s2l "content",
                                 .jarr (.jobj [(s2l "text", .jstr t)]
                                        :: tailitems))])]),
                (s2l "usage",
                 .jobj ((s2l "inputTokens", .jnum it)
                        :: (s2l "outputTokens", .jnum ot) :: usagetail))])
        = (some t, some (it + ot))) := by
  refine ⟨?_, ?_, rfl, ?_, ?_⟩
  · by_cases hi : isLlama cfg
    · rw [if_pos hi]
      unfold buildRequestBody familyALegacyRequest
      rw [if_pos hi]
    · rw [if_neg hi]
      unfold buildRequestBody familyBChatRequest
      rw [if_neg hi]
  · by_cases hi : isLlama cfg
    · rw [if_pos hi]
      unfold promptFor
      rw [if_pos hi]
    · rw [if_neg hi]
      unfold promptFor
      rw [if_neg hi]
  · unfold parseLlamaBody
    cases hlk : body.lookup (s2l "generation") with
    | none => rfl
    | some v => cases v <;> rfl
  · intro t tailitems it ot usagetail
    rfl

/-- **C9**: the fallback's why-it-matters phrase equals a first-match scan
of the cleaned text over the fixed ordered keyword table (AI/ML,
security, cloud, open-source, performance, cost, launch/new,
update/feature), with the generic phrase when no group matches; since the
scan takes the first matching group, table order decides texts matching
several groups. -/
theorem generate_why_it_matters_table_scan (content : PStr) :
    generate_why_it_matters content = specWhy content := by
  unfold generate_why_it_matters specWhy whyTable
  by_cases h1 : groupMatches (pyLower content) kwAI
  · simp [List.find?, h1]
  · by_cases h2 : groupMatches (pyLower content) kwSecurity
    · simp [List.find?, h1, h2]
    · by_cases h3 : groupMatches (pyLower content) kwCloud
      · simp [List.find?, h1, h2, h3]
      · by_cases h4 : groupMatches (pyLower content) kwOpenSource
        · simp [List.find?, h1, h2, h3, h4]
        · by_cases h5 : groupMatches (pyLower content) kwPerformance
          · simp [List.find?, h1, h2, h3, h4, h5]
          · by_cases h6 : groupMatches (pyLower content) kwCost
            · simp [List.find?, h1, h2, h3, h4, h5, h6]
            · by_cases h7 : groupMatches (pyLower content) kwLaunch
              · simp [List.find?, h1, h2, h3, h4, h5, h6, h7]
              · by_cases h8 : groupMatches (pyLower content) kwUpdate
                · simp [List.find?, h1, h2, h3, h4, h5, h6, h7, h8]
                · simp [List.find?, h1, h2, h3, h4, h5, h6, h7, h8]

/-- **C10**: the parser unconditionally takes the first non-empty trimmed
line as the title (after stripping an optional `Titolo:`/`Title:` label),
and computes bullets, why-it-matters and source from the remaining lines
only; in particular a first line that starts with a bullet marker or a
why-it-matters label still becomes the title unchanged (the title-label
regex does not touch it) and is not counted among the bullets or the
why-it-matters text. -/
theorem format_summary_first_line_is_title (raw first : PStr) (rest : List PStr)
    (h : linesOf raw = first :: rest) :
    (format_summary raw).title = truncWords 10 (subLabels titleLabels first) ∧
    (format_summary raw).bullets = normalizedBullets rest ∧
    (format_summary raw).why_it_matters = finalWhy rest ∧
    (isBulletLine first = true →
      (format_summary raw).title = truncWords 10 first) ∧
    (isWhyLine first = true →
      (format_summary raw).title = truncWords 10 first) := by
  rw [format_summary_eq_cons raw first rest h]
  refine ⟨rfl, rfl, rfl, ?_, ?_⟩
  · intro hb
    unfold isBulletLine at hb
    rcases Bool.or_eq_true_iff.mp hb with hs | hs
    · rw [show s2l "•" = [8226] from by decide] at hs
      obtain ⟨t, rfl⟩ := isPrefixOf_cons_head hs
      show truncWords 10 (subLabels titleLabels (8226 :: t)) = _
      rw [subLabels_title_id 8226 t (by decide)]
    · rw [show s2l "-" = [45] from by decide] at hs
      obtain ⟨t, rfl⟩ := isPrefixOf_cons_head hs
      show truncWords 10 (subLabels titleLabels (45 :: t)) = _
      rw [subLabels_title_id 45 t (by decide)]
  · intro hw
    unfold isWhyLine at hw
    rw [List.any_eq_true] at hw
    obtain ⟨lab, hmem, hs⟩ := hw
    have hlab : lab = s2l "perché ti può interessare:" ∨ lab = s2l "perché conta:"
        ∨ lab = s2l "why it matters:" := by
      simpa [whyLabels] using hmem
    have hhead : ∃ hd labt, lab = hd :: labt ∧ (hd = 112 ∨ hd = 119) := by
      rcases hlab with rfl | rfl | rfl
      · exact ⟨112, s2l "erché ti può interessare:", by decide, Or.inl rfl⟩
      · exact ⟨112, s2l "erché conta:", by decide, Or.inl rfl⟩
      · exact ⟨119, s2l "hy it matters:", by decide, Or.inr rfl⟩
    obtain ⟨hd, labt, rfl, hhd⟩ := hhead
    obtain ⟨t, ht⟩ := isPrefixOf_cons_head hs
    cases hf : first with
    | nil => rw [hf] at ht; exact absurd ht (by simp [pyLower])
    | cons c ct =>
      rw [hf] at ht
      have hlc : lowerChar c = hd := by
        have : pyLower (c :: ct) = lowerChar c :: pyLower ct := rfl
        rw [this] at ht
        exact (List.cons.injEq _ _ _ _ ▸ ht).1
      show truncWords 10 (subLabels titleLabels (c :: ct)) = _
      rw [subLabels_title_id c ct (by rw [hlc]; rcases hhd with rfl | rfl <;> decide)]

/-- **C3**: when at least one sentence candidate survives, the extractive
fallback scores at most the first 10 candidates with
`score = 0.6 * positionScore + 0.4 * lengthScore`
(`positionScore = 1 - index/totalCount`,
`lengthScore = min(length/100, 1)`), sorts descending by score with ties
kept in original order (the stable sort: the result is pairwise
descending, and any originally-ordered pair with the left score at least
the right score stays in that order), takes the top 3, and the title is
the first 8 words of the top-scored sentence. -/
theorem fallback_scoring_characterization (content : PStr)
    (h : sentencesOf (cleanFallbackText content) ≠ []) :
    (scoredSentences (sentencesOf (cleanFallbackText content))).length
      = min 10 (sentencesOf (cleanFallbackText content)).length ∧
    scoredSentences (sentencesOf (cleanFallbackText content))
      = specScored (sentencesOf (cleanFallbackText content)) ∧
    topSentences (sentencesOf (cleanFallbackText content))
      = specTop3 (sentencesOf (cleanFallbackText content)) ∧
    topSentences (sentencesOf (cleanFallbackText content)) ≠ [] ∧
    (sortedScored (sentencesOf (cleanFallbackText content))).Pairwise
      (fun a b => b.2 ≤ a.2) ∧
    (∀ a b, List.Sublist [a, b]
        (scoredSentences (sentencesOf (cleanFallbackText content))) →
      b.2 ≤ a.2 →
      List.Sublist [a, b]
        (sortedScored (sentencesOf (cleanFallbackText content)))) ∧
    (∀ t ts, specTop3 (sentencesOf (cleanFallbackText content)) = t :: ts →
      fallbackTitle (sentencesOf (cleanFallbackText content))
        = joinSpace ((pyWords t).take 8)) := by
  have htrans : ∀ (a b c : PStr × ℚ),
      (fun a b : PStr × ℚ => decide (b.2 ≤ a.2)) a b = true →
      (fun a b : PStr × ℚ => decide (b.2 ≤ a.2)) b c = true →
      (fun a b : PStr × ℚ => decide (b.2 ≤ a.2)) a c = true := by
    intro a b c hab hbc
    simp only [decide_eq_true_eq] at *
    exact le_trans hbc hab
  have htotal : ∀ (a b : PStr × ℚ),
      ((fun a b : PStr × ℚ => decide (b.2 ≤ a.2)) a b
        || (fun a b : PStr × ℚ => decide (b.2 ≤ a.2)) b a) = true := by
    intro a b
    simp only [Bool.or_eq_true, decide_eq_true_eq]
    exact le_total b.2 a.2
  have hsc : scoredSentences (sentencesOf (cleanFallbackText content))
      = specScored (sentencesOf (cleanFallbackText content)) := by
    unfold scoredSentences specScored
    apply List.map_congr_left
    intro p hp
    rw [Prod.mk.injEq]
    refine ⟨rfl, ?_⟩
    unfold sentenceScore specScore specPositionScore specLengthScore
    ring
  have hcmp : (fun a b : PStr × ℚ => decide (b.2 ≤ a.2))
      = (fun a b : PStr × ℚ => decide (a.2 ≥ b.2)) := by
    funext a b
    exact decide_eq_decide.mpr ge_iff_le.symm
  have hsort : sortedScored (sentencesOf (cleanFallbackText content))
      = specSorted (sentencesOf (cleanFallbackText content)) := by
    unfold sortedScored specSorted
    rw [hsc, hcmp]
  have htop : topSentences (sentencesOf (cleanFallbackText content))
      = specTop3 (sentencesOf (cleanFallbackText content)) := by
    unfold topSentences specTop3
    rw [hsort]
  have hlen : (scoredSentences (sentencesOf (cleanFallbackText content))).length
      = min 10 (sentencesOf (cleanFallbackText content)).length := by
    unfold scoredSentences
    simp [List.length_take]
  refine ⟨hlen, hsc, htop, ?_, ?_, ?_, ?_⟩
  · unfold topSentences
    have h1 : (sortedScored (sentencesOf (cleanFallbackText content))).length
        = (scoredSentences (sentencesOf (cleanFallbackText content))).length := by
      unfold sortedScored
      exact List.length_mergeSort _
    intro hcontra
    have h2 := congrArg List.length hcontra
    simp only [List.length_map, List.length_take, List.length_nil, h1, hlen] at h2
    have h3 : (sentencesOf (cleanFallbackText content)).length ≠ 0 :=
      fun h0 => h (List.eq_nil_of_length_eq_zero h0)
    omega
  · have := List.sorted_mergeSort htrans htotal
      (scoredSentences (sentencesOf (cleanFallbackText content)))
    exact List.Pairwise.imp (fun hx => of_decide_eq_true hx) this
  · intro a b hsub hba
    exact List.pair_sublist_mergeSort htrans htotal (decide_eq_true hba) hsub
  · intro t ts hts
    rw [← htop] at hts
    unfold fallbackTitle
    rw [hts]

/-- **C3 witness**: the theorem applied to a concrete single-sentence input:
the top sentence list equals the spec's, and the title is the first 8
words of the top-scored sentence. -/
theorem fallback_scoring_characterization_witness :
    topSentences (sentencesOf (cleanFallbackText
        (s2l "Questa frase di prova è abbastanza lunga davvero.")))
      = specTop3 (sentencesOf (cleanFallbackText
        (s2l "Questa frase di prova è abbastanza lunga davvero."))) ∧
    fallbackTitle (sentencesOf (cleanFallbackText
        (s2l "Questa frase di prova è abbastanza lunga davvero.")))
      = joinSpace ((pyWords
          (s2l "Questa frase di prova è abbastanza lunga davvero")).take 8) :=
  ⟨(fallback_scoring_characterization
      (s2l "Questa frase di prova è abbastanza lunga davvero.") (by decide)).2.2.1,
   (fallback_scoring_characterization
      (s2l "Questa frase di prova è abbastanza lunga davvero.") (by decide)).2.2.2.2.2.2
      (s2l "Questa frase di prova è abbastanza lunga davvero") []
      (by
        rw [show sentencesOf (cleanFallbackText
            (s2l "Questa frase di prova è abbastanza lunga davvero."))
          = [s2l "Questa frase di prova è abbastanza lunga davvero"] from by decide]
        simp [specTop3, specSorted, specScored, List.mergeSort_singleton])⟩

/-- **C10 witness**: the theorem applied to an output whose first line is
itself a bullet line: it becomes the title (marker kept, word-capped) and
only the second line contributes bullets. -/
theorem format_summary_first_line_is_title_witness :
    (format_summary (s2l "• Punto\n• A")).title = truncWords 10 (s2l "• Punto") ∧
    (format_summary (s2l "• Punto\n• A")).bullets = normalizedBullets [s2l "• A"] :=
  ⟨(format_summary_first_line_is_title (s2l "• Punto\n• A") (s2l "• Punto")
      [s2l "• A"] (by decide)).2.2.2.1 (by decide),
   (format_summary_first_line_is_title (s2l "• Punto\n• A") (s2l "• Punto")
      [s2l "• A"] (by decide)).2.1⟩

end RssBot
